import Mathlib

/-!
Shallow embedding of `game/gamestate.py` (class `GameState`) of the
three-of-mankind platformer, together with proofs about the level decoder,
the per-frame update, the key handlers and the camera controller.

Conventions of the embedding:
* Python floats are modelled as rationals (`ℚ`); `int(x)` truncation toward
  zero is `pyInt`.
* The modules `constants.py`, `player.py`, `utils.py` and `tile_image.py`
  are collaborators whose internals are not part of the verified core: their
  constants and functions (`DASH_DISTANCE`, `sweep_trace`, `is_touching`,
  the tile catalog `tiles`, the arcade collision test and the platformer
  physics engine) are parameters collected in the record `Env`, so every
  theorem below is quantified over them.
* The physics engine (`arcade.PhysicsEnginePlatformer` plus
  `Player.update`) is modelled as an opaque transformer `phys` acting on
  the kinematic fields of the player and the grounded report only; it does
  not touch the game-specific ability counters or the decoded level data
  (decorative sprites are static, so `SpriteList.update` is a no-op on
  them).
* `self.start` / `self.end` of the Python class are `start` / `endSprite`
  (`end` is a Lean keyword).
-/

/-- Player color state, `{white, red, green, blue}` in the source. -/
inductive Color
  | white
  | red
  | green
  | blue
deriving DecidableEq, Repr

/-- Keys that `on_key_press` / `on_key_release` distinguish; every other
arcade key code is `OTHER`. -/
inductive Key
  | E
  | F
  | R
  | G
  | B
  | LSHIFT
  | SPACE
  | LEFT
  | RIGHT
  | A
  | D
  | OTHER
deriving DecidableEq, Repr

/-- A tile descriptor of the catalog: only its `name` drives the decoder's
classification logic. -/
structure Tile where
  name : String
deriving DecidableEq, Repr

/-- A placed sprite: the tile name it was instantiated from and its
axis-aligned bounding-box anchor (left, bottom) in world units. -/
structure Sprite where
  tname : String
  left : ℚ
  bottom : ℚ
deriving DecidableEq, Repr

/-- Mutable state of the `Player` entity that `gamestate.py` reads or
writes. -/
structure PlayerS where
  left : ℚ
  bottom : ℚ
  width : ℚ
  height : ℚ
  velocity_x : ℚ
  change_y : ℚ
  movement_x : ℚ
  movement_control : ℚ
  direction : ℚ
  str_color : Color
  jump_count : ℕ
  dash_count : ℕ
  is_jumping : Bool
  jump_force : ℚ
deriving DecidableEq, Repr

/-- Right edge of the player's bounding box. -/
def PlayerS.right (p : PlayerS) : ℚ := p.left + p.width

/-- Top edge of the player's bounding box. -/
def PlayerS.top (p : PlayerS) : ℚ := p.bottom + p.height

/-- Horizontal center of the player's bounding box. -/
def PlayerS.center_x (p : PlayerS) : ℚ := p.left + p.width / 2

/-- Vertical center of the player's bounding box. -/
def PlayerS.center_y (p : PlayerS) : ℚ := p.bottom + p.height / 2

/-- The slice of state the external physics engine may read and write:
player kinematics and the grounded report. -/
structure PhysView where
  left : ℚ
  bottom : ℚ
  velocity_x : ℚ
  change_y : ℚ
  grounded : Bool
deriving DecidableEq, Repr

/-- A level image: dimensions and an RGBA pixel function indexed from the
top-left corner, as PIL exposes it. -/
structure LevelImage where
  w : ℕ
  h : ℕ
  px : ℕ → ℕ → ℕ × ℕ × ℕ × ℕ

/-- Environment of constants and external collaborators: the values from
`constants.py` and `__main__.py` (frame size) together with the opaque
functions from `utils.py`, `tile_image.py`, the filesystem and arcade. -/
structure Env where
  TEXTURE_SIZE : ℚ
  DASH_DISTANCE : ℚ
  DASH_COUNT : ℕ
  JUMP_COUNT : ℕ
  JUMP_FORCE : ℚ
  JUMP_VELOCITY_BONUS : ℚ
  PLAYER_MOVEMENT_SPEED : ℚ
  LEFT : ℚ
  RIGHT : ℚ
  GROUND_CONTROL : ℚ
  AIR_CONTROL : ℚ
  VIEWPORT_MARGIN : ℚ
  width : ℚ
  height : ℚ
  tiles : String → Option Tile
  levels : ℕ → Option LevelImage
  collides : PlayerS → Sprite → Bool
  is_touching : PlayerS → List Sprite → Bool
  sweep_trace : PlayerS → ℚ → ℚ → List Sprite → Bool
  phys : PhysView → PhysView

/-- The session state held by the `GameState` object. -/
structure GState where
  view_left : ℚ
  view_bottom : ℚ
  level : ℕ
  can_jump : Bool
  level_geometry : List Sprite
  level_objects : List Sprite
  danger : List Sprite
  saves : List Sprite
  colored_red : List Sprite
  colored_green : List Sprite
  colored_blue : List Sprite
  colored_white : List Sprite
  start : Option Sprite
  endSprite : Option Sprite
  player : PlayerS
deriving DecidableEq, Repr

/-- The `colored_geometry` dictionary, keyed by color. -/
def coloredGeometry (s : GState) : Color → List Sprite
  | Color.red => s.colored_red
  | Color.green => s.colored_green
  | Color.blue => s.colored_blue
  | Color.white => s.colored_white

/-- Player.set_color: updates the color state (texture switching is
presentation). -/
def set_color (c : Color) (p : PlayerS) : PlayerS := { p with str_color := c }

/-- The tuple `all_colors = ("white", "red", "green", "blue")` of the cycle
branch in `on_key_press`. -/
def all_colors : List Color := [Color.white, Color.red, Color.green, Color.blue]

/-- The color-cycle operation of the `E` branch of `on_key_press`:
`all_colors[(all_colors.index(c) + 1) % len(all_colors)]`. -/
def cycle_color (c : Color) : Color :=
  all_colors.getD ((all_colors.indexOf c + 1) % all_colors.length) Color.white

/-- The direct color-select dictionary `{F: white, R: red, G: green,
B: blue}`. -/
def keyColorSel : Key → Option Color
  | Key.F => some Color.white
  | Key.R => some Color.red
  | Key.G => some Color.green
  | Key.B => some Color.blue
  | _ => none

/-- Color-change block of `on_key_press`: the `E` cycle branch followed by
the direct-select branch. -/
def colorKeysPhase (key : Key) (s : GState) : GState :=
  let s1 :=
    if key = Key.E then
      { s with player := set_color (cycle_color s.player.str_color) s.player }
    else s
  match keyColorSel key with
  | some c => { s1 with player := set_color c s1.player }
  | none => s1

/-- The `# Pre` block of `on_key_press`: when the engine reports the player
grounded, both ability counters are reset to zero. -/
def preResetPhase (s : GState) : GState :=
  if s.can_jump then
    { s with player := { s.player with dash_count := 0, jump_count := 0 } }
  else s

/-- The two `self.player.left += DASH_DISTANCE * self.player.direction`
statements of a successful dash (the particle emitter between them is
presentation). -/
def do_dash (env : Env) (s : GState) : GState :=
  let p1 := { s.player with left := s.player.left + env.DASH_DISTANCE * s.player.direction }
  let p2 := { p1 with left := p1.left + env.DASH_DISTANCE * p1.direction }
  { s with player := p2 }

/-- The `# Dashing` block of `on_key_press`: sweep trace, budget check,
then the double position increment. -/
def dashPhase (env : Env) (key : Key) (s : GState) : GState :=
  if key = Key.LSHIFT then
    if env.sweep_trace s.player env.DASH_DISTANCE 0 s.level_geometry then s
    else
      if s.can_jump then do_dash env s
      else
        if s.player.dash_count < env.DASH_COUNT then
          do_dash env { s with player := { s.player with dash_count := s.player.dash_count + 1 } }
        else s
  else s

/-- The `# Jumping` block of `on_key_press`. -/
def jumpPhase (env : Env) (key : Key) (s : GState) : GState :=
  if key = Key.SPACE then
    let jc := s.player.jump_count + 1
    if jc ≤ env.JUMP_COUNT then
      { s with player :=
        { s.player with
          jump_count := jc
          change_y := 0
          is_jumping := true
          jump_force := env.JUMP_FORCE + |s.player.velocity_x| * env.JUMP_VELOCITY_BONUS } }
    else { s with player := { s.player with jump_count := jc } }
  else s

/-- The `# Moving` block of `on_key_press`. -/
def movePhase (env : Env) (key : Key) (s : GState) : GState :=
  let s1 :=
    if key = Key.LEFT ∨ key = Key.A then
      { s with player :=
        { s.player with movement_x := -env.PLAYER_MOVEMENT_SPEED, direction := env.LEFT } }
    else s
  if key = Key.RIGHT ∨ key = Key.D then
    { s1 with player :=
      { s1.player with movement_x := env.PLAYER_MOVEMENT_SPEED, direction := env.RIGHT } }
  else s1

/-- GameState.on_key_press: color change, grounded counter reset, dash,
jump, movement intent — in source order. -/
def on_key_press (env : Env) (key : Key) (s : GState) : GState :=
  movePhase env key (jumpPhase env key (dashPhase env key (preResetPhase (colorKeysPhase key s))))

/-- GameState.on_key_release. -/
def on_key_release (key : Key) (s : GState) : GState :=
  let s1 :=
    if key = Key.SPACE then { s with player := { s.player with is_jumping := false } }
    else s
  if key = Key.LEFT ∨ key = Key.A then
    if s1.player.movement_x < 0 then
      { s1 with player := { s1.player with movement_x := 0 } }
    else s1
  else
    if key = Key.RIGHT ∨ key = Key.D then
      if s1.player.movement_x > 0 then
        { s1 with player := { s1.player with movement_x := 0 } }
      else s1
    else s1

/-- The nested helper `to_int(r, g, b, a)` of `load_level`. -/
def to_int (r g b a : ℕ) : ℕ := (r <<< 24) + (g <<< 16) + (b <<< 8) + a

/-- The `color_map` dictionary of `load_level` with its `.get(key, "E")`
default (the explicit `0x00000000 ↦ E` entry coincides with the default). -/
def color_map (v : ℕ) : Char :=
  if v = 0xFFFFFFFF then 'W'
  else if v = 0xFF0000FF then 'R'
  else if v = 0x00FF00FF then 'G'
  else if v = 0x0000FFFF then 'B'
  else if v = 0x00FFFFFF then 'L'
  else if v = 0xFF00FFFF then 'P'
  else if v = 0x000000FF then 'D'
  else 'E'

/-- One pixel of the image packed as the 32-bit RGBA value `to_int` builds. -/
def pxValue (img : LevelImage) (x y : ℕ) : ℕ :=
  match img.px x y with
  | (r, g, b, a) => to_int r g b a

/-- The generator `gen_colors` of `load_level`: the nine color codes of the
3-pixel block whose bottom image row is `y` and left column is `x`, read
row by row (`yi ∈ [y-2, y-1, y]`, `xi ∈ [x, x+1, x+2]`). -/
def blockSignature (img : LevelImage) (x y : ℕ) : String :=
  String.mk
    (([y - 2, y - 1, y].map fun yi =>
      [x, x + 1, x + 2].map fun xi => color_map (pxValue img xi yi)).flatten)

/-- Image rows visited by `for y in range(h - 1, -1, -3)`: the bottommost
pixel row of each 3-row block, from the bottom of the image upward. -/
def scanRows (h : ℕ) : List ℕ :=
  (List.range ((h + 2) / 3)).map fun i => h - 1 - 3 * i

/-- Image columns visited by `for x in range(0, w, 3)`. -/
def scanCols (w : ℕ) : List ℕ :=
  (List.range ((w + 2) / 3)).map fun j => 3 * j

/-- Suffix after the last underscore: `name.rsplit("_", 1)[-1]`. -/
def rsplitLast (n : String) : String := (n.splitOn "_").getLastD n

/-- Append a sprite into the `colored_geometry` bucket selected by
`rsplit`, guarded by the `endswith(("white", "red", "green", "blue"))`
test. A name passing the suffix test whose rsplit is not one of the four
keys would raise `KeyError` in Python; no catalog tile is named that way,
and the embedding leaves the state unchanged there. -/
def addColored (name : String) (sp : Sprite) (s : GState) : GState :=
  if name.endsWith "white" ∨ name.endsWith "red" ∨ name.endsWith "green" ∨
      name.endsWith "blue" then
    match rsplitLast name with
    | "white" => { s with colored_white := s.colored_white ++ [sp] }
    | "red" => { s with colored_red := s.colored_red ++ [sp] }
    | "green" => { s with colored_green := s.colored_green ++ [sp] }
    | "blue" => { s with colored_blue := s.colored_blue ++ [sp] }
    | _ => s
  else s

/-- Classification of one decoded tile by the name-convention tests of
`load_level`, in source order. -/
def placeTile (t : Tile) (left bottom : ℚ) (s : GState) : GState :=
  let sp : Sprite := ⟨t.name, left, bottom⟩
  let s1 :=
    if t.name.startsWith "block" ∨ t.name.startsWith "danger" then
      { s with level_geometry := s.level_geometry ++ [sp] }
    else
      { s with level_objects := s.level_objects ++ [sp] }
  let s2 := addColored t.name sp s1
  let s3 := if t.name.startsWith "save" then { s2 with saves := s2.saves ++ [sp] } else s2
  let s4 := if t.name.startsWith "danger" then { s3 with danger := s3.danger ++ [sp] } else s3
  if t.name.startsWith "level" then
    if t.name.endsWith "start" then { s4 with start := some sp }
    else { s4 with endSprite := some sp }
  else s4

/-- The wholesale reassignment of the level collections at the top of
`load_level` (before the pixel scan and before any validation). -/
def clearLevelState (s : GState) : GState :=
  { s with
    level_objects := []
    level_geometry := []
    danger := []
    saves := []
    start := none
    endSprite := none
    colored_red := []
    colored_green := []
    colored_blue := []
    colored_white := [] }

/-- The double scan loop of `load_level`: rows bottom-up, columns left to
right; `left` advances by `TEXTURE_SIZE` per block column and `bottom` by
`TEXTURE_SIZE` per block row. -/
def scanImage (env : Env) (img : LevelImage) (s : GState) : GState :=
  (scanRows img.h).enum.foldl
    (fun accRow rowPair =>
      (scanCols img.w).enum.foldl
        (fun acc colPair =>
          match env.tiles (blockSignature img colPair.2 rowPair.2) with
          | some t =>
              placeTile t ((colPair.1 : ℚ) * env.TEXTURE_SIZE)
                ((rowPair.1 : ℚ) * env.TEXTURE_SIZE) acc
          | none => acc)
        accRow)
    (clearLevelState s)

/-- Outcome of `load_level`: `notFound` is the `return False` path,
`raised msg` models the `RuntimeError(msg)` escaping the call, `ok` is the
`return True` path. -/
inductive LoadOutcome
  | notFound
  | raised (msg : String)
  | ok
deriving DecidableEq, Repr

/-- GameState.move_to_start. The Python attribute access would fail when
`self.start` is `None`; the method is only ever reached with a validated
start, and the embedding is the identity there. -/
def move_to_start (s : GState) : GState :=
  match s.start with
  | some st => { s with player := { s.player with left := st.left, bottom := st.bottom } }
  | none => s

/-- GameState.load_level: open the image (`notFound` when absent), replace
every level collection, scan the pixel grid, then validate start and end
markers, raising when either is missing, and finally reposition the player
at the start tile. -/
def load_level (env : Env) (s : GState) (level_id : ℕ) : LoadOutcome × GState :=
  match env.levels level_id with
  | none => (LoadOutcome.notFound, s)
  | some img =>
    let sd := scanImage env img s
    match sd.start with
    | none => (LoadOutcome.raised "Start is not set.", sd)
    | some _ =>
      match sd.endSprite with
      | none => (LoadOutcome.raised "End is not set.", sd)
      | some _ => (LoadOutcome.ok, move_to_start sd)

/-- Step 1 of `on_update`: ground or air control profile from the engine's
grounded report. -/
def controlPhase (env : Env) (s : GState) : GState :=
  if s.can_jump then
    { s with player := { s.player with movement_control := env.GROUND_CONTROL } }
  else
    { s with player := { s.player with movement_control := env.AIR_CONTROL } }

/-- The test `self.player.collides_with_sprite(self.end)`. -/
def collidesEnd (env : Env) (s : GState) : Bool :=
  match s.endSprite with
  | some e => env.collides s.player e
  | none => false

/-- Step 2 of `on_update`: on contact with the end tile, increment the
level index and attempt the load; the boolean result is only logged. -/
def endPhase (env : Env) (s : GState) : LoadOutcome × GState :=
  if collidesEnd env s then
    let s1 := { s with level := s.level + 1 }
    load_level env s1 s1.level
  else (LoadOutcome.ok, s)

/-- Step 3 of `on_update`: `saves.pop()` of the colliding checkpoints (the
last one in list order) becomes the new respawn reference. -/
def savePhase (env : Env) (s : GState) : GState :=
  match (s.saves.filter fun sp => env.collides s.player sp).getLast? with
  | some sp => { s with start := some sp }
  | none => s

/-- Step 4 of `on_update`: hazard contact teleports the player to the
respawn reference. -/
def hazardPhase (env : Env) (s : GState) : GState :=
  if env.is_touching s.player s.danger then move_to_start s else s

/-- One iteration of the color-mismatch loop of `on_update`. -/
def colorCheckOne (env : Env) (c : Color) (s : GState) : GState :=
  if env.is_touching s.player (coloredGeometry s c) then move_to_start s else s

/-- The set `{"red", "green", "blue"} - {player color}` of the mismatch
loop. Python iterates it in unspecified set order; the embedding fixes the
order red, green, blue (any order teleports to the same respawn point). -/
def mismatchColors (c : Color) : List Color :=
  [Color.red, Color.green, Color.blue].filter fun x => x ≠ c

/-- Step 5 of `on_update`: contact with any non-matching colored geometry
teleports the player to the respawn reference. White geometry and the
player's own color are never checked. -/
def colorMismatchPhase (env : Env) (s : GState) : GState :=
  (mismatchColors s.player.str_color).foldl (fun acc c => colorCheckOne env c acc) s

/-- Steps 3 to 5 of `on_update`: checkpoint claim, hazard check, color
mismatch check. -/
def collisionPhase (env : Env) (s : GState) : GState :=
  colorMismatchPhase env (hazardPhase env (savePhase env s))

/-- Step 6 of `on_update`: `player.update()`, `engine.update()` and
`level_objects.update()`, modelled by the opaque transformer `env.phys` on
the kinematic slice of the state. -/
def physPhase (env : Env) (s : GState) : GState :=
  let v := env.phys
    ⟨s.player.left, s.player.bottom, s.player.velocity_x, s.player.change_y, s.can_jump⟩
  { s with
    can_jump := v.grounded
    player :=
      { s.player with
        left := v.left
        bottom := v.bottom
        velocity_x := v.velocity_x
        change_y := v.change_y } }

/-- Python `int(q)`: truncation toward zero. -/
def pyInt (q : ℚ) : ℤ := if q < 0 then ⌈q⌉ else ⌊q⌋

/-- The value of `self.view_left` in `update_screen` just before the final
`int(...)` truncation: left-edge scroll first, then right-edge scroll
against the boundary computed from the already-updated value. -/
def viewLeftAdjusted (env : Env) (s : GState) : ℚ :=
  let vl0 := s.view_left
  let lb := vl0 + env.VIEWPORT_MARGIN
  let vl1 := if s.player.left < lb then vl0 - (lb - s.player.left) else vl0
  let rb := vl1 + env.width - env.VIEWPORT_MARGIN
  if s.player.right > rb then vl1 + (s.player.right - rb) else vl1

/-- The value of `self.view_bottom` in `update_screen` just before the
final `int(...)` truncation: top-edge scroll first, then bottom-edge scroll
against the boundary computed from the already-updated value. -/
def viewBottomAdjusted (env : Env) (s : GState) : ℚ :=
  let vb0 := s.view_bottom
  let tb := vb0 + env.height - env.VIEWPORT_MARGIN
  let vb1 := if s.player.top > tb then vb0 + (s.player.top - tb) else vb0
  let bb := vb1 + env.VIEWPORT_MARGIN
  if s.player.bottom < bb then vb1 - (bb - s.player.bottom) else vb1

/-- GameState.update_screen: the four margin tests and the final integer
truncation (the `set_viewport` call is presentation). -/
def update_screen (env : Env) (s : GState) : GState :=
  { s with
    view_left := (pyInt (viewLeftAdjusted env s) : ℚ)
    view_bottom := (pyInt (viewBottomAdjusted env s) : ℚ) }

/-- GameState.on_update. A `RuntimeError` raised by `load_level` aborts the
frame and escapes the handler (`Except.error`); otherwise the remaining
steps run on the state the load produced. -/
def on_update (env : Env) (s : GState) : Except String GState :=
  let s1 := controlPhase env s
  match endPhase env s1 with
  | (LoadOutcome.raised msg, _) => Except.error msg
  | (_, s2) =>
      Except.ok (update_screen env (physPhase env (collisionPhase env s2)))

/-- The state after one frame, defined on the non-raising path (claims
using it supply hypotheses under which no exception occurs; on the raising
path it keeps the pre-frame state). -/
def stepOk (env : Env) (s : GState) : GState :=
  match on_update env s with
  | Except.ok s2 => s2
  | Except.error _ => s

/-- The decoded level collections of the session: geometry, decor, hazard,
checkpoint, colored sets and the end marker. The `start` field is excluded
because it doubles as the mutable respawn reference. -/
def levelData (s : GState) :
    List Sprite × List Sprite × List Sprite × List Sprite ×
      List Sprite × List Sprite × List Sprite × List Sprite × Option Sprite :=
  (s.level_geometry, s.level_objects, s.danger, s.saves,
    s.colored_red, s.colored_green, s.colored_blue, s.colored_white, s.endSprite)


/-- Projection of the two ability counters. -/
def jdCounts (s : GState) : ℕ × ℕ := (s.player.jump_count, s.player.dash_count)

/-- Position of the player when standing exactly at the bounding-box anchor
of a sprite. -/
def atStart (st : Sprite) (s : GState) : Prop :=
  s.player.left = st.left ∧ s.player.bottom = st.bottom

/-- Concrete environment used to evaluate the embedding on closed inputs:
plausible constants, an empty level directory, and collaborators that
report no contact and no obstruction; the physics step is the identity. -/
def envBase : Env :=
  { TEXTURE_SIZE := 16
    DASH_DISTANCE := 50
    DASH_COUNT := 2
    JUMP_COUNT := 2
    JUMP_FORCE := 10
    JUMP_VELOCITY_BONUS := 1
    PLAYER_MOVEMENT_SPEED := 5
    LEFT := -1
    RIGHT := 1
    GROUND_CONTROL := 1
    AIR_CONTROL := 1 / 2
    VIEWPORT_MARGIN := 200
    width := 1024
    height := 768
    tiles := fun _ => none
    levels := fun _ => none
    collides := fun _ _ => false
    is_touching := fun _ _ => false
    sweep_trace := fun _ _ _ _ => false
    phys := id }

/-- Environment whose sweep trace always reports an obstruction. -/
def envBlockedDash : Env := { envBase with sweep_trace := fun _ _ _ _ => true }

/-- Environment whose contact test always reports touching. -/
def envTouchAll : Env := { envBase with is_touching := fun _ _ => true }

/-- A 3-by-3 fully transparent level image: its single block has the
all-empty signature and decodes to nothing, so neither marker is found. -/
def emptyImage : LevelImage := ⟨3, 3, fun _ _ => (0, 0, 0, 0)⟩

/-- Environment in which exactly level 1 exists, as the marker-less
`emptyImage`. -/
def envLevelOne : Env :=
  { envBase with levels := fun i => if i = 1 then some emptyImage else none }

/-- Like `envLevelOne`, with an always-true sprite collision test (the
player overlaps the end tile). -/
def envEndLevelOne : Env := { envLevelOne with collides := fun _ _ => true }

/-- Like `envBase`, with an always-true sprite collision test. -/
def envEndAll : Env := { envBase with collides := fun _ _ => true }

/-- The start-marker sprite of the concrete states. -/
def startTile : Sprite := ⟨"level_start", 0, 0⟩

/-- The end-marker sprite of the concrete states. -/
def endTile : Sprite := ⟨"level_end", 100, 0⟩

/-- Concrete player: grounded states use it with both ability counters at
1, the value a landing without any key event leaves in place. -/
def playerBase : PlayerS :=
  { left := 200
    bottom := 200
    width := 16
    height := 16
    velocity_x := 0
    change_y := 0
    movement_x := 0
    movement_control := 1
    direction := 1
    str_color := Color.white
    jump_count := 1
    dash_count := 1
    is_jumping := false
    jump_force := 0 }

/-- Concrete session state: grounded, counters at 1, markers set, empty
level collections. -/
def gGround : GState :=
  { view_left := 0
    view_bottom := 0
    level := 0
    can_jump := true
    level_geometry := []
    level_objects := []
    danger := []
    saves := []
    colored_red := []
    colored_green := []
    colored_blue := []
    colored_white := []
    start := some startTile
    endSprite := some endTile
    player := playerBase }

/-- The airborne variant of `gGround`. -/
def gAir : GState := { gGround with can_jump := false }

/-- A state holding a previously decoded level with non-empty geometry and
checkpoint collections. -/
def gLoaded : GState :=
  { gGround with
    level_geometry := [⟨"block_white", 0, 0⟩]
    saves := [⟨"save", 48, 0⟩] }

/-- Camera scenario state: the player one unit inside the left margin. -/
def gCamIn : GState := { gGround with player := { playerBase with left := 201 } }

/-- Camera scenario state: the player one unit past the left margin. -/
def gCamOut : GState := { gGround with player := { playerBase with left := 199 } }

theorem foldl_proj {α β : Type} (g : GState → β) (f : GState → α → GState)
    (hf : ∀ t a, g (f t a) = g t) :
    ∀ (l : List α) (t : GState), g (l.foldl f t) = g t := by
  intro l
  induction l with
  | nil => intro t; rfl
  | cons a l ih => intro t; rw [List.foldl_cons, ih, hf]

theorem addColored_player (n : String) (sp : Sprite) (s : GState) :
    (addColored n sp s).player = s.player := by
  unfold addColored
  split
  · split <;> rfl
  · rfl

theorem placeTile_player (t : Tile) (l b : ℚ) (s : GState) :
    (placeTile t l b s).player = s.player := by
  unfold placeTile
  repeat' first
    | rw [addColored_player]
    | split

theorem scanImage_player (env : Env) (img : LevelImage) (s : GState) :
    (scanImage env img s).player = s.player := by
  unfold scanImage
  rw [foldl_proj GState.player]
  · rfl
  · intro t a
    rw [foldl_proj GState.player]
    intro t2 a2
    cases env.tiles (blockSignature img a2.2 a.2) with
    | none => rfl
    | some tile => exact placeTile_player ..

theorem move_to_start_jdCounts (s : GState) :
    jdCounts (move_to_start s) = jdCounts s := by
  unfold move_to_start; split <;> rfl

theorem load_level_jdCounts (env : Env) (s : GState) (i : ℕ) :
    jdCounts (load_level env s i).2 = jdCounts s := by
  unfold load_level
  cases h : env.levels i with
  | none => rfl
  | some img =>
    simp only
    have hp : (scanImage env img s).player = s.player := scanImage_player ..
    cases h1 : (scanImage env img s).start with
    | none => simp only [h1, jdCounts, hp]
    | some st =>
      cases h2 : (scanImage env img s).endSprite with
      | none => simp only [h1, h2, jdCounts, hp]
      | some e =>
        simp only [h1, h2]
        rw [move_to_start_jdCounts]
        simp only [jdCounts, hp]

theorem controlPhase_jdCounts (env : Env) (s : GState) :
    jdCounts (controlPhase env s) = jdCounts s := by
  unfold controlPhase; split <;> rfl

theorem controlPhase_level (env : Env) (s : GState) :
    (controlPhase env s).level = s.level := by
  unfold controlPhase; split <;> rfl

theorem endPhase_jdCounts (env : Env) (s : GState) :
    jdCounts (endPhase env s).2 = jdCounts s := by
  unfold endPhase
  split
  · rw [load_level_jdCounts]; rfl
  · rfl

theorem savePhase_player (env : Env) (s : GState) :
    (savePhase env s).player = s.player := by
  unfold savePhase; split <;> rfl

theorem hazardPhase_jdCounts (env : Env) (s : GState) :
    jdCounts (hazardPhase env s) = jdCounts s := by
  unfold hazardPhase
  split
  · exact move_to_start_jdCounts s
  · rfl

theorem colorCheckOne_jdCounts (env : Env) (c : Color) (s : GState) :
    jdCounts (colorCheckOne env c s) = jdCounts s := by
  unfold colorCheckOne
  split
  · exact move_to_start_jdCounts s
  · rfl

theorem colorMismatchPhase_jdCounts (env : Env) (s : GState) :
    jdCounts (colorMismatchPhase env s) = jdCounts s := by
  unfold colorMismatchPhase
  exact foldl_proj jdCounts _ (fun t c => colorCheckOne_jdCounts env c t) _ s

theorem collisionPhase_jdCounts (env : Env) (s : GState) :
    jdCounts (collisionPhase env s) = jdCounts s := by
  unfold collisionPhase
  rw [colorMismatchPhase_jdCounts, hazardPhase_jdCounts]
  simp only [jdCounts, savePhase_player]

theorem physPhase_jdCounts (env : Env) (s : GState) :
    jdCounts (physPhase env s) = jdCounts s := rfl

theorem update_screen_jdCounts (env : Env) (s : GState) :
    jdCounts (update_screen env s) = jdCounts s := rfl

theorem on_update_jdCounts (env : Env) (s s2 : GState)
    (h : on_update env s = Except.ok s2) : jdCounts s2 = jdCounts s := by
  unfold on_update at h
  dsimp only at h
  rcases he : endPhase env (controlPhase env s) with ⟨o, t⟩
  rw [he] at h
  have ht : jdCounts t = jdCounts s := by
    have h3 := endPhase_jdCounts env (controlPhase env s)
    rw [he] at h3
    rw [h3, controlPhase_jdCounts]
  cases o with
  | raised msg => exact Except.noConfusion h
  | notFound =>
    simp only [Except.ok.injEq] at h
    rw [← h, update_screen_jdCounts, physPhase_jdCounts, collisionPhase_jdCounts, ht]
  | ok =>
    simp only [Except.ok.injEq] at h
    rw [← h, update_screen_jdCounts, physPhase_jdCounts, collisionPhase_jdCounts, ht]

theorem colorKeysPhase_can_jump (key : Key) (s : GState) :
    (colorKeysPhase key s).can_jump = s.can_jump := by
  unfold colorKeysPhase
  cases keyColorSel key <;> split <;> rfl

theorem on_key_release_jdCounts (key : Key) (s : GState) :
    jdCounts (on_key_release key s) = jdCounts s := by
  unfold on_key_release
  dsimp only
  repeat' split
  all_goals rfl

theorem move_to_start_start (s : GState) : (move_to_start s).start = s.start := by
  unfold move_to_start; split <;> rfl

theorem move_to_start_atStart {s : GState} {st : Sprite} (hs : s.start = some st) :
    atStart st (move_to_start s) := by
  unfold move_to_start
  rw [hs]
  exact ⟨rfl, rfl⟩

theorem colorCheckOne_start (env : Env) (c : Color) (s : GState) :
    (colorCheckOne env c s).start = s.start := by
  unfold colorCheckOne
  split
  · exact move_to_start_start s
  · rfl

theorem colorCheckOne_atStart {env : Env} {c : Color} {s : GState} {st : Sprite}
    (hs : s.start = some st) (ha : atStart st s) : atStart st (colorCheckOne env c s) := by
  unfold colorCheckOne
  split
  · exact move_to_start_atStart hs
  · exact ha

theorem foldColors_atStart (env : Env) (st : Sprite) :
    ∀ (L : List Color) (s : GState), s.start = some st → atStart st s →
      atStart st (L.foldl (fun acc c => colorCheckOne env c acc) s) := by
  intro L
  induction L with
  | nil => intro s _ ha; exact ha
  | cons c0 rest ih =>
    intro s hs ha
    rw [List.foldl_cons]
    exact ih _ (by rw [colorCheckOne_start, hs]) (colorCheckOne_atStart hs ha)

theorem foldColors_trigger (env : Env) (st : Sprite) :
    ∀ (L : List Color) (s : GState), s.start = some st →
      (∃ c ∈ L, env.is_touching s.player (coloredGeometry s c) = true) →
      atStart st (L.foldl (fun acc c => colorCheckOne env c acc) s) := by
  intro L
  induction L with
  | nil =>
    intro s _ h
    rcases h with ⟨c, hc, _⟩
    exact absurd hc (List.not_mem_nil c)
  | cons c0 rest ih =>
    intro s hs h
    rw [List.foldl_cons]
    by_cases hc0 : env.is_touching s.player (coloredGeometry s c0) = true
    · have heq : colorCheckOne env c0 s = move_to_start s := by
        unfold colorCheckOne; rw [if_pos hc0]
      rw [heq]
      exact foldColors_atStart env st rest (move_to_start s)
        (by rw [move_to_start_start, hs]) (move_to_start_atStart hs)
    · have heq : colorCheckOne env c0 s = s := by
        unfold colorCheckOne; rw [if_neg hc0]
      rw [heq]
      apply ih s hs
      rcases h with ⟨c, hcmem, htouch⟩
      rcases List.mem_cons.mp hcmem with h1 | h2
      · subst h1; exact absurd htouch hc0
      · exact ⟨c, h2, htouch⟩

theorem foldColors_quiet (env : Env) :
    ∀ (L : List Color) (s : GState),
      (∀ c ∈ L, env.is_touching s.player (coloredGeometry s c) = false) →
      L.foldl (fun acc c => colorCheckOne env c acc) s = s := by
  intro L
  induction L with
  | nil => intro s _; rfl
  | cons c0 rest ih =>
    intro s h
    rw [List.foldl_cons]
    have hc0 := h c0 (List.mem_cons_self c0 rest)
    have heq : colorCheckOne env c0 s = s := by
      unfold colorCheckOne
      rw [if_neg (by simp [hc0])]
    rw [heq]
    exact ih s fun c hc => h c (List.mem_cons_of_mem c0 hc)

theorem move_to_start_levelData (s : GState) :
    levelData (move_to_start s) = levelData s := by
  unfold move_to_start; split <;> rfl

theorem savePhase_levelData (env : Env) (s : GState) :
    levelData (savePhase env s) = levelData s := by
  unfold savePhase; split <;> rfl

theorem hazardPhase_levelData (env : Env) (s : GState) :
    levelData (hazardPhase env s) = levelData s := by
  unfold hazardPhase
  split
  · exact move_to_start_levelData s
  · rfl

theorem colorCheckOne_levelData (env : Env) (c : Color) (s : GState) :
    levelData (colorCheckOne env c s) = levelData s := by
  unfold colorCheckOne
  split
  · exact move_to_start_levelData s
  · rfl

theorem colorMismatchPhase_levelData (env : Env) (s : GState) :
    levelData (colorMismatchPhase env s) = levelData s := by
  unfold colorMismatchPhase
  exact foldl_proj levelData _ (fun t c => colorCheckOne_levelData env c t) _ s

theorem collisionPhase_levelData (env : Env) (s : GState) :
    levelData (collisionPhase env s) = levelData s := by
  unfold collisionPhase
  rw [colorMismatchPhase_levelData, hazardPhase_levelData, savePhase_levelData]

theorem move_to_start_level (s : GState) : (move_to_start s).level = s.level := by
  unfold move_to_start; split <;> rfl

theorem savePhase_level (env : Env) (s : GState) :
    (savePhase env s).level = s.level := by
  unfold savePhase; split <;> rfl

theorem hazardPhase_level (env : Env) (s : GState) :
    (hazardPhase env s).level = s.level := by
  unfold hazardPhase
  split
  · exact move_to_start_level s
  · rfl

theorem colorCheckOne_level (env : Env) (c : Color) (s : GState) :
    (colorCheckOne env c s).level = s.level := by
  unfold colorCheckOne
  split
  · exact move_to_start_level s
  · rfl

theorem colorMismatchPhase_level (env : Env) (s : GState) :
    (colorMismatchPhase env s).level = s.level := by
  unfold colorMismatchPhase
  exact foldl_proj GState.level _ (fun t c => colorCheckOne_level env c t) _ s

theorem collisionPhase_level (env : Env) (s : GState) :
    (collisionPhase env s).level = s.level := by
  unfold collisionPhase
  rw [colorMismatchPhase_level, hazardPhase_level, savePhase_level]

theorem stepOk_lastLevel (env : Env) (t : GState)
    (hn : env.levels (t.level + 1) = none)
    (hc : collidesEnd env (controlPhase env t) = true) :
    on_update env t = Except.ok (stepOk env t) ∧
    (stepOk env t).level = t.level + 1 ∧
    levelData (stepOk env t) = levelData t := by
  have hend : endPhase env (controlPhase env t) =
      (LoadOutcome.notFound,
        { controlPhase env t with level := (controlPhase env t).level + 1 }) := by
    unfold endPhase
    rw [if_pos hc]
    dsimp only
    unfold load_level
    rw [controlPhase_level env t, hn]
  have hupd : on_update env t = Except.ok (update_screen env (physPhase env
      (collisionPhase env
        { controlPhase env t with level := (controlPhase env t).level + 1 }))) := by
    unfold on_update
    dsimp only
    rw [hend]
  have hso : stepOk env t = update_screen env (physPhase env
      (collisionPhase env
        { controlPhase env t with level := (controlPhase env t).level + 1 })) := by
    unfold stepOk
    rw [hupd]
  refine ⟨by rw [hupd, hso], ?_, ?_⟩
  · rw [hso]
    show (update_screen env _).level = _
    rw [show ∀ u, (update_screen env u).level = u.level from fun u => rfl,
      show ∀ u, (physPhase env u).level = u.level from fun u => rfl,
      collisionPhase_level]
    rw [controlPhase_level]
  · rw [hso]
    rw [show ∀ u, levelData (update_screen env u) = levelData u from fun u => rfl,
      show ∀ u, levelData (physPhase env u) = levelData u from fun u => rfl,
      collisionPhase_levelData]
    rw [show levelData { controlPhase env t with
        level := (controlPhase env t).level + 1 } = levelData (controlPhase env t) from rfl]
    unfold controlPhase
    split <;> rfl

theorem preResetPhase_can_jump (s : GState) :
    (preResetPhase s).can_jump = s.can_jump := by
  unfold preResetPhase; split <;> rfl

theorem preResetPhase_left (s : GState) :
    (preResetPhase s).player.left = s.player.left := by
  unfold preResetPhase; split <;> rfl

theorem preResetPhase_bottom (s : GState) :
    (preResetPhase s).player.bottom = s.player.bottom := by
  unfold preResetPhase; split <;> rfl

theorem preResetPhase_direction (s : GState) :
    (preResetPhase s).player.direction = s.player.direction := by
  unfold preResetPhase; split <;> rfl

theorem do_dash_left (env : Env) (s : GState) :
    (do_dash env s).player.left =
      s.player.left + 2 * env.DASH_DISTANCE * s.player.direction := by
  show s.player.left + env.DASH_DISTANCE * s.player.direction +
      env.DASH_DISTANCE * s.player.direction = _
  ring

theorem do_dash_bottom (env : Env) (s : GState) :
    (do_dash env s).player.bottom = s.player.bottom := rfl

theorem do_dash_dash_count (env : Env) (s : GState) :
    (do_dash env s).player.dash_count = s.player.dash_count := rfl

theorem do_dash_jump_count (env : Env) (s : GState) :
    (do_dash env s).player.jump_count = s.player.jump_count := rfl

theorem pyInt_intCast (k : ℤ) : pyInt (k : ℚ) = k := by
  unfold pyInt
  split
  · exact Int.ceil_intCast k
  · exact Int.floor_intCast k

/-- C8: repeated applications of the color-cycle operation advance the
color state through the fixed ordered sequence white, red, green, blue
circularly, and starting from any of the four colors exactly 4 cycle
operations (and no fewer) return the color to its original value. -/
theorem cycle_color_period_four :
    cycle_color Color.white = Color.red ∧
    cycle_color Color.red = Color.green ∧
    cycle_color Color.green = Color.blue ∧
    cycle_color Color.blue = Color.white ∧
    ∀ c : Color,
      cycle_color (cycle_color (cycle_color (cycle_color c))) = c ∧
      cycle_color c ≠ c ∧
      cycle_color (cycle_color c) ≠ c ∧
      cycle_color (cycle_color (cycle_color c)) ≠ c := by
  refine ⟨rfl, rfl, rfl, rfl, fun c => ?_⟩
  cases c <;> exact ⟨rfl, by decide, by decide, by decide⟩

/-- C9: on every key-press event delivered while the engine reports the
player grounded — whatever the key — both ability counters are zero on the
state the dash block is then evaluated on; and neither an update frame
without key events nor a key release performs such a reset (both leave the
counters unchanged). -/
theorem grounded_reset_before_dash (env : Env) (key : Key) (s : GState)
    (h : s.can_jump = true) :
    ((preResetPhase (colorKeysPhase key s)).player.jump_count = 0 ∧
      (preResetPhase (colorKeysPhase key s)).player.dash_count = 0 ∧
      on_key_press env key s =
        movePhase env key (jumpPhase env key (dashPhase env key
          (preResetPhase (colorKeysPhase key s))))) ∧
    (∀ t s2 : GState, on_update env t = Except.ok s2 →
      s2.player.jump_count = t.player.jump_count ∧
      s2.player.dash_count = t.player.dash_count) ∧
    (∀ (k : Key) (t : GState),
      (on_key_release k t).player.jump_count = t.player.jump_count ∧
      (on_key_release k t).player.dash_count = t.player.dash_count) := by
  refine ⟨⟨?_, ?_, rfl⟩, ?_, ?_⟩
  · unfold preResetPhase
    rw [colorKeysPhase_can_jump, h]
    rfl
  · unfold preResetPhase
    rw [colorKeysPhase_can_jump, h]
    rfl
  · intro t s2 h2
    have hjd := on_update_jdCounts env t s2 h2
    exact ⟨congrArg Prod.fst hjd, congrArg Prod.snd hjd⟩
  · intro k t
    have hjd := on_key_release_jdCounts k t
    exact ⟨congrArg Prod.fst hjd, congrArg Prod.snd hjd⟩

/-- Witness for C9 at a concrete grounded state and the movement key A. -/
theorem grounded_reset_before_dash_w :
    gGround.can_jump = true ∧
    (preResetPhase (colorKeysPhase Key.A gGround)).player.jump_count = 0 ∧
    (preResetPhase (colorKeysPhase Key.A gGround)).player.dash_count = 0 :=
  ⟨rfl, (grounded_reset_before_dash envBase Key.A gGround rfl).1.1,
    (grounded_reset_before_dash envBase Key.A gGround rfl).1.2.1⟩

/-- C2 counterexample: a full update frame on a grounded state with both
counters at 1 and no key event delivered completes without any reset step:
the counters are still 1 after the frame, where the claim demands 0. -/
theorem grounded_frame_no_reset_cx :
    gGround.can_jump = true ∧
    gGround.player.jump_count = 1 ∧ gGround.player.dash_count = 1 ∧
    on_update envBase gGround = Except.ok (stepOk envBase gGround) ∧
    (stepOk envBase gGround).player.jump_count = 1 ∧
    (stepOk envBase gGround).player.dash_count = 1 :=
  ⟨rfl, rfl, rfl, rfl, rfl, rfl⟩

/-- C2 amended: the grounded zeroing of jumpCount and dashCount happens
once per key-press event (before that event's dash logic), not once per
update frame; an update frame with no key event leaves both counters
unchanged even when the engine reports the player grounded. -/
theorem counters_reset_per_grounded_event (env : Env) (key : Key) (s : GState)
    (h : s.can_jump = true) :
    (∃ t : GState,
      on_key_press env key s =
        movePhase env key (jumpPhase env key (dashPhase env key t)) ∧
      t.player.jump_count = 0 ∧ t.player.dash_count = 0) ∧
    (∀ s2 : GState, on_update env s = Except.ok s2 →
      s2.player.jump_count = s.player.jump_count ∧
      s2.player.dash_count = s.player.dash_count) := by
  constructor
  · refine ⟨preResetPhase (colorKeysPhase key s), rfl, ?_, ?_⟩ <;>
      · unfold preResetPhase
        rw [colorKeysPhase_can_jump, h]
        rfl
  · intro s2 h2
    have hjd := on_update_jdCounts env s s2 h2
    exact ⟨congrArg Prod.fst hjd, congrArg Prod.snd hjd⟩

/-- Witness for the amended C2 at a concrete grounded state. -/
theorem counters_reset_per_grounded_event_w :
    gGround.can_jump = true ∧
    (∃ t : GState,
      on_key_press envBase Key.OTHER gGround =
        movePhase envBase Key.OTHER (jumpPhase envBase Key.OTHER
          (dashPhase envBase Key.OTHER t)) ∧
      t.player.jump_count = 0 ∧ t.player.dash_count = 0) :=
  ⟨rfl, (counters_reset_per_grounded_event envBase Key.OTHER gGround rfl).1⟩

/-- C5 counterexample: a dash-press with an obstructed sweep trace on a
grounded state with dashCount 1 leaves the position bit-identical but does
change an ability budget: the per-event grounded reset zeroes dashCount. -/
theorem blocked_dash_resets_budget_cx :
    gGround.can_jump = true ∧
    gGround.player.dash_count = 1 ∧
    (on_key_press envBlockedDash Key.LSHIFT gGround).player.left =
      gGround.player.left ∧
    (on_key_press envBlockedDash Key.LSHIFT gGround).player.bottom =
      gGround.player.bottom ∧
    (on_key_press envBlockedDash Key.LSHIFT gGround).player.dash_count = 0 :=
  ⟨rfl, rfl, rfl, rfl, rfl⟩

/-- C5 amended: when the sweep trace reports an obstruction, a dash-press
never moves the player; if the player is airborne the whole event is a
no-op on the state, and if the player is grounded the only change is the
per-event grounded reset zeroing both counters (no dash cost is consumed,
no movement happens). -/
theorem blocked_dash_no_movement (env : Env) (s : GState)
    (hob : env.sweep_trace (preResetPhase s).player env.DASH_DISTANCE 0
      (preResetPhase s).level_geometry = true) :
    (on_key_press env Key.LSHIFT s).player.left = s.player.left ∧
    (on_key_press env Key.LSHIFT s).player.bottom = s.player.bottom ∧
    (s.can_jump = false → on_key_press env Key.LSHIFT s = s) ∧
    (s.can_jump = true →
      (on_key_press env Key.LSHIFT s).player.dash_count = 0 ∧
      (on_key_press env Key.LSHIFT s).player.jump_count = 0) := by
  have hkp : on_key_press env Key.LSHIFT s =
      dashPhase env Key.LSHIFT (preResetPhase s) := rfl
  have hdash : dashPhase env Key.LSHIFT (preResetPhase s) = preResetPhase s := by
    unfold dashPhase
    rw [if_pos rfl, if_pos hob]
  have hfix : on_key_press env Key.LSHIFT s = preResetPhase s := hkp.trans hdash
  refine ⟨?_, ?_, ?_, ?_⟩
  · rw [hfix, preResetPhase_left]
  · rw [hfix, preResetPhase_bottom]
  · intro h
    rw [hfix]
    unfold preResetPhase
    rw [if_neg (by simp [h])]
  · intro h
    rw [hfix]
    unfold preResetPhase
    rw [if_pos h]
    exact ⟨rfl, rfl⟩

/-- Witness for the amended C5 at a concrete airborne state. -/
theorem blocked_dash_no_movement_w :
    (on_key_press envBlockedDash Key.LSHIFT gAir).player.left =
      gAir.player.left ∧
    (gAir.can_jump = false → on_key_press envBlockedDash Key.LSHIFT gAir = gAir) :=
  ⟨(blocked_dash_no_movement envBlockedDash gAir rfl).1,
    (blocked_dash_no_movement envBlockedDash gAir rfl).2.2.1⟩

/-- C6: on a dash-press with a clear sweep trace, a grounded player is
teleported by exactly twice the configured dash distance in the facing
direction with both counters at zero (the grounded reset, no budget
consumed); an airborne player with dashCount below the cap is teleported
the same distance with dashCount incremented by one; an airborne player
with the budget exhausted is refused and the event changes nothing. -/
theorem clear_dash_semantics (env : Env) (s : GState)
    (hcl : env.sweep_trace (preResetPhase s).player env.DASH_DISTANCE 0
      (preResetPhase s).level_geometry = false) :
    (s.can_jump = true →
      (on_key_press env Key.LSHIFT s).player.left =
        s.player.left + 2 * env.DASH_DISTANCE * s.player.direction ∧
      (on_key_press env Key.LSHIFT s).player.bottom = s.player.bottom ∧
      (on_key_press env Key.LSHIFT s).player.dash_count = 0 ∧
      (on_key_press env Key.LSHIFT s).player.jump_count = 0) ∧
    (s.can_jump = false → s.player.dash_count < env.DASH_COUNT →
      (on_key_press env Key.LSHIFT s).player.left =
        s.player.left + 2 * env.DASH_DISTANCE * s.player.direction ∧
      (on_key_press env Key.LSHIFT s).player.bottom = s.player.bottom ∧
      (on_key_press env Key.LSHIFT s).player.dash_count =
        s.player.dash_count + 1) ∧
    (s.can_jump = false → ¬ s.player.dash_count < env.DASH_COUNT →
      on_key_press env Key.LSHIFT s = s) := by
  have hkp : on_key_press env Key.LSHIFT s =
      dashPhase env Key.LSHIFT (preResetPhase s) := rfl
  refine ⟨?_, ?_, ?_⟩
  · intro h
    have hpre : preResetPhase s =
        { s with player := { s.player with dash_count := 0, jump_count := 0 } } := by
      unfold preResetPhase
      rw [if_pos h]
    have hdash : dashPhase env Key.LSHIFT (preResetPhase s) =
        do_dash env (preResetPhase s) := by
      unfold dashPhase
      rw [if_pos rfl, if_neg (by simp [hcl]), if_pos (by rw [preResetPhase_can_jump, h])]
    rw [hkp, hdash]
    refine ⟨?_, ?_, ?_, ?_⟩
    · rw [do_dash_left, preResetPhase_left, preResetPhase_direction]
    · rw [do_dash_bottom, preResetPhase_bottom]
    · rw [do_dash_dash_count, hpre]
    · rw [do_dash_jump_count, hpre]
  · intro h hlt
    have hpre : preResetPhase s = s := by
      unfold preResetPhase
      rw [if_neg (by simp [h])]
    rw [hpre] at hcl
    have hdash : dashPhase env Key.LSHIFT s =
        do_dash env { s with player := { s.player with
          dash_count := s.player.dash_count + 1 } } := by
      unfold dashPhase
      rw [if_pos rfl, if_neg (by simp [hcl]), if_neg (by simp [h]), if_pos hlt]
    rw [hkp, hpre, hdash]
    exact ⟨by rw [do_dash_left], by rw [do_dash_bottom], by rw [do_dash_dash_count]⟩
  · intro h hge
    have hpre : preResetPhase s = s := by
      unfold preResetPhase
      rw [if_neg (by simp [h])]
    rw [hpre] at hcl
    have hdash : dashPhase env Key.LSHIFT s = s := by
      unfold dashPhase
      rw [if_pos rfl, if_neg (by simp [hcl]), if_neg (by simp [h]), if_neg hge]
    rw [hkp, hpre, hdash]

/-- Witness for C6: with a clear trace, the airborne state with dashCount
1 below the cap of 2 is teleported from left 200 to 300 (twice the dash
distance 50) and its dashCount becomes 2. -/
theorem clear_dash_semantics_w :
    (on_key_press envBase Key.LSHIFT gAir).player.left = 300 ∧
    (on_key_press envBase Key.LSHIFT gAir).player.dash_count = 2 := by
  have h := (clear_dash_semantics envBase gAir rfl).2.1 rfl (by decide)
  exact ⟨h.1.trans (by norm_num [gAir, gGround, playerBase, envBase]),
    h.2.2.trans (by decide)⟩

/-- C4: whenever the player touches a hazard sprite, or touches colored
geometry of a color different from the player's own (white and the
matching color are never consulted), the collision-resolution step of the
update teleports the player exactly to the current respawn reference —
the checkpoint claimed by this frame's save check, or otherwise the
previously stored reference (the level start if no checkpoint was ever
claimed); with no hazard and no mismatched-color contact the player's
position is left untouched. -/
theorem deadly_contact_respawns (env : Env) (s : GState) (st : Sprite)
    (hst : (savePhase env s).start = some st) :
    ((env.is_touching (savePhase env s).player (savePhase env s).danger = true ∨
        ∃ c ∈ mismatchColors (savePhase env s).player.str_color,
          env.is_touching (savePhase env s).player
            (coloredGeometry (savePhase env s) c) = true) →
      (collisionPhase env s).player.left = st.left ∧
        (collisionPhase env s).player.bottom = st.bottom) ∧
    (env.is_touching (savePhase env s).player (savePhase env s).danger = false →
      (∀ c ∈ mismatchColors (savePhase env s).player.str_color,
        env.is_touching (savePhase env s).player
          (coloredGeometry (savePhase env s) c) = false) →
      (collisionPhase env s).player = s.player) ∧
    ((s.saves.filter fun sp => env.collides s.player sp) = [] →
      (savePhase env s).start = s.start) ∧
    (∀ sp, (s.saves.filter fun sp2 => env.collides s.player sp2).getLast? = some sp →
      (savePhase env s).start = some sp) := by
  refine ⟨?_, ?_, ?_, ?_⟩
  · intro htr
    have hat : atStart st (colorMismatchPhase env (hazardPhase env (savePhase env s))) := by
      by_cases hz : env.is_touching (savePhase env s).player (savePhase env s).danger = true
      · have hhz : hazardPhase env (savePhase env s) = move_to_start (savePhase env s) := by
          unfold hazardPhase
          rw [if_pos hz]
        rw [hhz]
        unfold colorMismatchPhase
        exact foldColors_atStart env st _ _
          (by rw [move_to_start_start, hst]) (move_to_start_atStart hst)
      · have hhz : hazardPhase env (savePhase env s) = savePhase env s := by
          unfold hazardPhase
          rw [if_neg hz]
        rw [hhz]
        unfold colorMismatchPhase
        rcases htr with h1 | h2
        · exact absurd h1 hz
        · exact foldColors_trigger env st _ _ hst h2
    exact ⟨hat.1, hat.2⟩
  · intro hz hcs
    show (colorMismatchPhase env (hazardPhase env (savePhase env s))).player = s.player
    have hhz : hazardPhase env (savePhase env s) = savePhase env s := by
      unfold hazardPhase
      rw [if_neg (by simp [hz])]
    rw [hhz]
    unfold colorMismatchPhase
    rw [foldColors_quiet env _ _ hcs]
    exact savePhase_player env s
  · intro hf
    unfold savePhase
    simp only [hf, List.getLast?_nil]
  · intro sp hsp
    unfold savePhase
    simp only [hsp]

/-- Witness for C4: with an always-touching contact test the collision
step puts the concrete player at the start tile's anchor (0, 0); with a
never-touching test it leaves the player untouched. -/
theorem deadly_contact_respawns_w :
    (collisionPhase envTouchAll gGround).player.left = 0 ∧
    (collisionPhase envTouchAll gGround).player.bottom = 0 ∧
    (collisionPhase envBase gGround).player = gGround.player := by
  have h1 := deadly_contact_respawns envTouchAll gGround startTile rfl
  have h2 := deadly_contact_respawns envBase gGround startTile rfl
  exact ⟨(h1.1 (Or.inl rfl)).1, (h1.1 (Or.inl rfl)).2,
    h2.2.1 rfl (fun c _ => rfl)⟩

/-- C1 counterexample: decoding the marker-less `emptyImage` over a session
holding a previously decoded level does fail (the `RuntimeError` for the
missing start marker), yet the session's level state observable after the
failed attempt is not the state from before the attempt: the non-empty
geometry and checkpoint collections of the previous level have already
been replaced by the empty partially decoded ones. -/
theorem load_invalid_keeps_partial_cx :
    (load_level envLevelOne gLoaded 1).1 = LoadOutcome.raised "Start is not set." ∧
    gLoaded.level_geometry ≠ [] ∧
    gLoaded.saves ≠ [] ∧
    (load_level envLevelOne gLoaded 1).2.level_geometry = [] ∧
    (load_level envLevelOne gLoaded 1).2.saves = [] := by
  refine ⟨rfl, by decide, by decide, rfl, rfl⟩

/-- C1 amended: decoding an image lacking a start or an end marker fails
with the LevelInvalid error (a raised `RuntimeError`), but not atomically:
the session's level collections have already been replaced wholesale by
the partially decoded ones before the validation runs, so the previous
Level is not kept intact. Only the LevelNotFound failure (unreadable
image) leaves the session state untouched. -/
theorem load_missing_marker_partial (env : Env) (s : GState) (img : LevelImage)
    (i : ℕ) (himg : env.levels i = some img) :
    ((scanImage env img s).start = none →
      load_level env s i =
        (LoadOutcome.raised "Start is not set.", scanImage env img s)) ∧
    (∀ st, (scanImage env img s).start = some st →
      (scanImage env img s).endSprite = none →
      load_level env s i =
        (LoadOutcome.raised "End is not set.", scanImage env img s)) ∧
    (∀ j, env.levels j = none → load_level env s j = (LoadOutcome.notFound, s)) := by
  refine ⟨?_, ?_, ?_⟩
  · intro h1
    simp only [load_level, himg, h1]
  · intro st h1 h2
    simp only [load_level, himg, h1, h2]
  · intro j hj
    simp only [load_level, hj]

/-- Witness for the amended C1: the concrete marker-less decode raises and
returns the scanned (cleared) state; the missing level 0 returns the
untouched state. -/
theorem load_missing_marker_partial_w :
    load_level envLevelOne gLoaded 1 =
      (LoadOutcome.raised "Start is not set.", scanImage envLevelOne emptyImage gLoaded) ∧
    load_level envLevelOne gLoaded 0 = (LoadOutcome.notFound, gLoaded) := by
  have h := load_missing_marker_partial envLevelOne gLoaded emptyImage 1 rfl
  exact ⟨h.1 rfl, h.2.2 0 rfl⟩

/-- C3 counterexample: with the end tile touched and the next level image
present but lacking its start marker, the per-frame update does not return
a discriminated result: the decode failure escapes `on_update` as the raw
`RuntimeError` fault (modelled by `Except.error`), reaching the arcade
event-dispatch layer. -/
theorem decode_fault_escapes_cx :
    on_update envEndLevelOne gLoaded = Except.error "Start is not set." := rfl

/-- C3 amended: only the LevelNotFound decode failure is communicated as a
discriminated result (the boolean return of `load_level`) and never
escapes the per-frame update; the LevelInvalid failure (missing start
marker) escapes `load_level` and `on_update` as a raised RuntimeError. -/
theorem decode_failure_discrimination (env : Env) (s : GState) :
    (env.levels (s.level + 1) = none → ∃ s2, on_update env s = Except.ok s2) ∧
    (∀ img, env.levels (s.level + 1) = some img →
      collidesEnd env (controlPhase env s) = true →
      (scanImage env img { controlPhase env s with
        level := (controlPhase env s).level + 1 }).start = none →
      on_update env s = Except.error "Start is not set.") := by
  constructor
  · intro hnone
    by_cases hc : collidesEnd env (controlPhase env s) = true
    · have hend : endPhase env (controlPhase env s) =
          (LoadOutcome.notFound,
            { controlPhase env s with level := (controlPhase env s).level + 1 }) := by
        unfold endPhase
        rw [if_pos hc]
        dsimp only
        unfold load_level
        rw [controlPhase_level, hnone]
      exact ⟨_, by unfold on_update; dsimp only; rw [hend]⟩
    · have hend : endPhase env (controlPhase env s) =
          (LoadOutcome.ok, controlPhase env s) := by
        unfold endPhase
        rw [if_neg hc]
      exact ⟨_, by unfold on_update; dsimp only; rw [hend]⟩
  · intro img himg hc hstart
    have hend : endPhase env (controlPhase env s) =
        (LoadOutcome.raised "Start is not set.",
          scanImage env img { controlPhase env s with
            level := (controlPhase env s).level + 1 }) := by
      unfold endPhase
      rw [if_pos hc]
      dsimp only
      unfold load_level
      rw [controlPhase_level] at hstart ⊢
      rw [himg]
      dsimp only
      rw [hstart]
    unfold on_update
    dsimp only
    rw [hend]

/-- Witness for the amended C3: on the concrete states, a missing next
level yields a normal `Except.ok` frame while the marker-less next level
escapes as the raised error. -/
theorem decode_failure_discrimination_w :
    (∃ s2, on_update envBase gGround = Except.ok s2) ∧
    on_update envEndLevelOne gLoaded = Except.error "Start is not set." :=
  ⟨(decode_failure_discrimination envBase gGround).1 rfl,
    (decode_failure_discrimination envEndLevelOne gLoaded).2 emptyImage rfl rfl rfl⟩

/-- C7: for each screen edge the camera view coordinate is shifted by
exactly the player's overshoot past that edge's margin and left unchanged
when the player is inside the margin (stated per edge with the opposite
edge quiet, since both horizontal tests write the same coordinate and the
second test uses the already-updated value); the stored view coordinates
are the integer truncations of the adjusted values; in particular a player
at `viewLeft + M + 1` leaves an integer `viewLeft` unchanged and a player
at `viewLeft + M - 1` shifts it left by exactly one unit. -/
theorem camera_margin_scroll (env : Env) (s : GState) (n : ℤ)
    (hn : s.view_left = (n : ℚ)) :
    (s.player.left < s.view_left + env.VIEWPORT_MARGIN →
      s.player.right ≤ s.player.left - env.VIEWPORT_MARGIN + env.width -
        env.VIEWPORT_MARGIN →
      viewLeftAdjusted env s =
        s.view_left - (s.view_left + env.VIEWPORT_MARGIN - s.player.left)) ∧
    (¬ s.player.left < s.view_left + env.VIEWPORT_MARGIN →
      s.player.right > s.view_left + env.width - env.VIEWPORT_MARGIN →
      viewLeftAdjusted env s =
        s.view_left + (s.player.right -
          (s.view_left + env.width - env.VIEWPORT_MARGIN))) ∧
    (¬ s.player.left < s.view_left + env.VIEWPORT_MARGIN →
      ¬ s.player.right > s.view_left + env.width - env.VIEWPORT_MARGIN →
      viewLeftAdjusted env s = s.view_left) ∧
    (s.player.top > s.view_bottom + env.height - env.VIEWPORT_MARGIN →
      ¬ s.player.bottom < s.view_bottom +
        (s.player.top - (s.view_bottom + env.height - env.VIEWPORT_MARGIN)) +
        env.VIEWPORT_MARGIN →
      viewBottomAdjusted env s =
        s.view_bottom + (s.player.top -
          (s.view_bottom + env.height - env.VIEWPORT_MARGIN))) ∧
    (¬ s.player.top > s.view_bottom + env.height - env.VIEWPORT_MARGIN →
      s.player.bottom < s.view_bottom + env.VIEWPORT_MARGIN →
      viewBottomAdjusted env s =
        s.view_bottom - (s.view_bottom + env.VIEWPORT_MARGIN - s.player.bottom)) ∧
    (¬ s.player.top > s.view_bottom + env.height - env.VIEWPORT_MARGIN →
      ¬ s.player.bottom < s.view_bottom + env.VIEWPORT_MARGIN →
      viewBottomAdjusted env s = s.view_bottom) ∧
    (update_screen env s).view_left = ((pyInt (viewLeftAdjusted env s) : ℤ) : ℚ) ∧
    (s.player.left = s.view_left + env.VIEWPORT_MARGIN + 1 →
      ¬ s.player.right > s.view_left + env.width - env.VIEWPORT_MARGIN →
      (update_screen env s).view_left = (n : ℚ)) ∧
    (s.player.left = s.view_left + env.VIEWPORT_MARGIN - 1 →
      s.player.right ≤ s.player.left - env.VIEWPORT_MARGIN + env.width -
        env.VIEWPORT_MARGIN →
      (update_screen env s).view_left = ((n - 1 : ℤ) : ℚ)) := by
  have hLA : s.player.left < s.view_left + env.VIEWPORT_MARGIN →
      s.player.right ≤ s.player.left - env.VIEWPORT_MARGIN + env.width -
        env.VIEWPORT_MARGIN →
      viewLeftAdjusted env s =
        s.view_left - (s.view_left + env.VIEWPORT_MARGIN - s.player.left) := by
    intro h1 h2
    unfold viewLeftAdjusted
    dsimp only
    rw [if_pos h1, if_neg (by simp only [gt_iff_lt, not_lt]; linarith)]
  have hRA : ¬ s.player.left < s.view_left + env.VIEWPORT_MARGIN →
      s.player.right > s.view_left + env.width - env.VIEWPORT_MARGIN →
      viewLeftAdjusted env s =
        s.view_left + (s.player.right -
          (s.view_left + env.width - env.VIEWPORT_MARGIN)) := by
    intro h1 h2
    unfold viewLeftAdjusted
    dsimp only
    rw [if_neg h1, if_pos h2]
  have hQA : ¬ s.player.left < s.view_left + env.VIEWPORT_MARGIN →
      ¬ s.player.right > s.view_left + env.width - env.VIEWPORT_MARGIN →
      viewLeftAdjusted env s = s.view_left := by
    intro h1 h2
    unfold viewLeftAdjusted
    dsimp only
    rw [if_neg h1, if_neg h2]
  have hTA : s.player.top > s.view_bottom + env.height - env.VIEWPORT_MARGIN →
      ¬ s.player.bottom < s.view_bottom +
        (s.player.top - (s.view_bottom + env.height - env.VIEWPORT_MARGIN)) +
        env.VIEWPORT_MARGIN →
      viewBottomAdjusted env s =
        s.view_bottom + (s.player.top -
          (s.view_bottom + env.height - env.VIEWPORT_MARGIN)) := by
    intro h1 h2
    unfold viewBottomAdjusted
    dsimp only
    rw [if_pos h1, if_neg h2]
  have hBA : ¬ s.player.top > s.view_bottom + env.height - env.VIEWPORT_MARGIN →
      s.player.bottom < s.view_bottom + env.VIEWPORT_MARGIN →
      viewBottomAdjusted env s =
        s.view_bottom - (s.view_bottom + env.VIEWPORT_MARGIN - s.player.bottom) := by
    intro h1 h2
    unfold viewBottomAdjusted
    dsimp only
    rw [if_neg h1, if_pos h2]
  have hQB : ¬ s.player.top > s.view_bottom + env.height - env.VIEWPORT_MARGIN →
      ¬ s.player.bottom < s.view_bottom + env.VIEWPORT_MARGIN →
      viewBottomAdjusted env s = s.view_bottom := by
    intro h1 h2
    unfold viewBottomAdjusted
    dsimp only
    rw [if_neg h1, if_neg h2]
  have hS1 : s.player.left = s.view_left + env.VIEWPORT_MARGIN + 1 →
      ¬ s.player.right > s.view_left + env.width - env.VIEWPORT_MARGIN →
      (update_screen env s).view_left = (n : ℚ) := by
    intro h1 h2
    have hq := hQA (by rw [not_lt, h1]; linarith) h2
    show (pyInt (viewLeftAdjusted env s) : ℚ) = (n : ℚ)
    rw [hq, hn, pyInt_intCast]
  have hS2 : s.player.left = s.view_left + env.VIEWPORT_MARGIN - 1 →
      s.player.right ≤ s.player.left - env.VIEWPORT_MARGIN + env.width -
        env.VIEWPORT_MARGIN →
      (update_screen env s).view_left = ((n - 1 : ℤ) : ℚ) := by
    intro h1 h2
    have hl := hLA (by rw [h1]; linarith) h2
    have hv : viewLeftAdjusted env s = ((n - 1 : ℤ) : ℚ) := by
      rw [hl, h1, hn]
      push_cast
      ring
    show (pyInt (viewLeftAdjusted env s) : ℚ) = ((n - 1 : ℤ) : ℚ)
    rw [hv, pyInt_intCast]
  exact ⟨hLA, hRA, hQA, hTA, hBA, hQB, rfl, hS1, hS2⟩

/-- Witness for C7: with margin 200 and integer viewLeft 0, the concrete
player at left 201 leaves viewLeft at 0, and at left 199 shifts it to -1. -/
theorem camera_margin_scroll_w :
    (update_screen envBase gCamIn).view_left = ((0 : ℤ) : ℚ) ∧
    (update_screen envBase gCamOut).view_left = ((-1 : ℤ) : ℚ) := by
  have hIn := (camera_margin_scroll envBase gCamIn 0
    (by norm_num [gCamIn, gGround])).2.2.2.2.2.2.2.1
    (by norm_num [gCamIn, gGround, playerBase, envBase])
    (by norm_num [gCamIn, gGround, playerBase, envBase, PlayerS.right])
  have hOut := (camera_margin_scroll envBase gCamOut 0
    (by norm_num [gCamOut, gGround])).2.2.2.2.2.2.2.2
    (by norm_num [gCamOut, gGround, playerBase, envBase])
    (by norm_num [gCamOut, gGround, playerBase, envBase, PlayerS.right])
  refine ⟨hIn, ?_⟩
  simpa using hOut

/-- C10: in every update frame whose end-contact test reports the player
on the end tile and whose next level image is absent, the level index is
incremented by exactly one while the decoded level data stays unchanged;
iterated over n such frames on the final level, the index grows by n
without bound while the loaded Level never changes. -/
theorem last_level_unbounded_index (env : Env) (s : GState) (n : ℕ)
    (hno : ∀ m, s.level < m → env.levels m = none)
    (hcol : ∀ k, k < n →
      collidesEnd env (controlPhase env ((stepOk env)^[k] s)) = true) :
    ((stepOk env)^[n] s).level = s.level + n ∧
    levelData ((stepOk env)^[n] s) = levelData s := by
  revert hcol
  induction n with
  | zero => intro _; exact ⟨rfl, rfl⟩
  | succ k ih =>
    intro hcol
    have ihh := ih fun j hj => hcol j (Nat.lt_succ_of_lt hj)
    rw [Function.iterate_succ_apply']
    have hstep := stepOk_lastLevel env ((stepOk env)^[k] s)
      (by rw [ihh.1]; exact hno _ (by omega))
      (hcol k (Nat.lt_succ_self k))
    exact ⟨by rw [hstep.2.1, ihh.1]; omega, by rw [hstep.2.2, ihh.2]⟩

/-- Witness for C10: with no level images on disk and the player standing
on the end tile, three frames take the concrete session from level 0 to
level 3 with identical level data. -/
theorem last_level_unbounded_index_w :
    ((stepOk envEndAll)^[3] gGround).level = gGround.level + 3 ∧
    levelData ((stepOk envEndAll)^[3] gGround) = levelData gGround :=
  last_level_unbounded_index envEndAll gGround 3 (fun _ _ => rfl)
    (by decide)
